import Mathlib

/-!
Verification development for the `oobabot` voice client
(`src/oobabot/voice_client.py`).

The Python class `VoiceClient` is shallowly embedded as a state record
`VCState` together with one Lean function per method.  External calls
(gateway `change_voice_state`, `Discrivener.run`/`stop`, the audio
responder's `start`/`stop`, `cleanup`, logging, `loop.call_soon_threadsafe`)
are recorded as an explicit list of `Effect`s.  Exceptions raised by a
method are modelled with `Option VCErr`; possible failures of external
awaited calls are injected through a `DisconnectEnv` record of booleans.
-/

namespace OobaVoice

/-- State of the external Discrivener transcription subprocess handle.
Modelled from the spec: the `Discrivener` class itself is not under `src/`;
per the spec's TranscriptionSession interface, `run` starts it
(`is_running()` becomes true) and `stop` ends it. -/
structure DiscrivenerState where
  running : Bool
deriving DecidableEq, Repr

/-- Kinds of messages delivered by the Discrivener notification callback,
mirroring `discrivener.DiscrivenerMessageType` plus a catch-all for
unrecognized tags (the final `fancy_logger.get().warning` branch). -/
inductive DiscrivenerMessageType where
  | connect
  | reconnect
  | disconnect
  | userJoin
  | transcribedMessage
  | unknown
deriving DecidableEq, Repr

/-- A Discrivener notification: its type tag, and whether the carried object
really is an instance of `TranscribedMessage` (the `isinstance` check in
`_handle_discrivener_output`). -/
structure DiscrivenerMessage where
  type : DiscrivenerMessageType
  isTranscribedInstance : Bool
deriving DecidableEq, Repr

/-- Observable external actions of the voice client, one constructor per
call site in `voice_client.py`.  Log calls that carry no decision are
collapsed to `logInfo`/`logDebug`; each distinct warning gets its own tag. -/
inductive Effect where
  | changeVoiceState (channel : Option Nat) (selfDeaf selfMute : Bool)
  | discrivenerRun (channelId : Nat) (endpoint : String) (guildId : Nat)
      (sessionId : String) (userId : Nat) (token : String)
  | discrivenerStop
  | audioResponderStart
  | audioResponderStop
  | cleanup
  | scheduleDisconnect
  | transcriptOnMessage
  | warnExtraneousServerUpdate
  | warnAwaitingEndpoint
  | warnChannelNotFound (channelId : Nat)
  | warnChannelNotVocal (channelId : Nat)
  | warnNoEventLoop
  | warnNotTranscribedInstance
  | warnUnknownMessageType
  | logInfo
  | logDebug
deriving DecidableEq, Repr

/-- Errors a `VoiceClient` coroutine can raise.  `alreadyConnected` and
`handshakeTimeout` are the two `VoiceClientError` raise sites in the
source (distinguished by their message); the remaining constructors stand
for exceptions propagating out of awaited external calls. -/
inductive VCErr where
  | alreadyConnected
  | handshakeTimeout
  | gatewayError
  | discrivenerStopError
  | responderStopError
deriving DecidableEq, Repr

/-- Which awaited external calls of the teardown path fail by raising. -/
structure DisconnectEnv where
  leaveRaises : Bool
  discrivenerStopRaises : Bool
  responderStopRaises : Bool
deriving DecidableEq, Repr

/-- Environment in which every external call succeeds. -/
def noFailEnv : DisconnectEnv := ⟨false, false, false⟩

/-- The mutable state of one `VoiceClient` instance.  `guild_channels`
embeds the guild's channel table consulted by `guild.get_channel`:
channel id paired with whether the channel is a `VocalGuildChannel`. -/
structure VCState where
  discrivener : Option DiscrivenerState
  discrivener_connected : Bool
  handshaking : Bool
  oobabot_voice_connected : Bool
  potentially_reconnecting : Bool
  voice_state_complete : Bool
  voice_server_complete : Bool
  session_id : String
  channel_id : Nat
  user_id : Nat
  guild_id : Nat
  guild_channels : List (Nat × Bool)
deriving DecidableEq, Repr

/-- State as `__init__` leaves it (all flags false, both events unset,
`_discrivener` constructed and not yet running), with a concrete identity
and a guild holding one vocal channel (id 1) and one text channel (id 2). -/
def initialVCState : VCState :=
  { discrivener := some ⟨false⟩
    discrivener_connected := false
    handshaking := false
    oobabot_voice_connected := false
    potentially_reconnecting := false
    voice_state_complete := false
    voice_server_complete := false
    session_id := ""
    channel_id := 1
    user_id := 42
    guild_id := 7
    guild_channels := [(1, true), (2, false)] }

/-- Python `pattern.isPrefixOf haystack` over char lists, embedding
`str.startswith`. -/
def listIsPref : List Char → List Char → Bool
  | [], _ => true
  | _ :: _, [] => false
  | a :: as, b :: bs => a == b && listIsPref as bs

/-- Embedding of Python `s.startswith(p)`. -/
def pyStartswith (s p : String) : Bool := listIsPref p.data s.data

/-- Drop everything up to and including the first colon of a char list;
the whole list consumed (yielding `[]`) when no colon occurs. -/
def dropToColon : List Char → List Char
  | [] => []
  | x :: xs => if x = ':' then xs else dropToColon xs

/-- Everything before the last colon of a char list (empty when the list
has no colon), matching the head of Python `s.rpartition(":")`. -/
def rpartHeadList (l : List Char) : List Char :=
  (dropToColon l.reverse).reverse

/-- Embedding of `endpoint.rpartition(":")[0]`, the head component kept by
`on_voice_server_update`. -/
def pyRpartitionHead (s : String) : String := ⟨rpartHeadList s.data⟩

/-- Python `s[6:]` for the `endpoint[6:]` slice. -/
def pyDrop (s : String) (n : Nat) : String := ⟨s.data.drop n⟩

/-- The endpoint normalization of `on_voice_server_update` (lines 166-169):
keep what precedes the last `:`; then, if the remainder starts with
`wss://`, drop those six characters. -/
def normalizeEndpoint (ep : String) : String :=
  let e := pyRpartitionHead ep
  if pyStartswith e "wss://" then pyDrop e 6 else e

/-- Whether the transcription subprocess reports itself alive, embedding
`self._discrivener is not None and self._discrivener.is_running()`. -/
def discrivenerAlive (s : VCState) : Bool :=
  match s.discrivener with
  | none => false
  | some d => d.running

/-- Embedding of `VoiceClient.is_connected` (lines 277-285): a chain of
early-false returns ending in `self._discrivener_connected`. -/
def is_connected (s : VCState) : Bool :=
  if !s.oobabot_voice_connected then false
  else
    match s.discrivener with
    | none => false
    | some d => if !d.running then false else s.discrivener_connected

/-- Payload of a gateway voice-state-update: `session_id` and a nullable
`channel_id` (Discord sends channel ids as strings; the code immediately
applies `int(...)`, so we carry the numeric value). -/
structure StateUpdatePayload where
  session_id : String
  channel_id : Option Nat
deriving DecidableEq, Repr

/-- Payload of a gateway voice-server-update: nullable `token`, `guild_id`
and nullable `endpoint`. -/
structure ServerUpdatePayload where
  token : Option String
  guild_id : Nat
  endpoint : Option String
deriving DecidableEq, Repr

/-- Lookup embedding `guild.get_channel(channel_id)`: `none` when no such
channel exists, `some isVocal` otherwise. -/
def lookupChannel (channels : List (Nat × Bool)) (cid : Nat) : Option Bool :=
  match channels with
  | [] => none
  | (i, v) :: rest => if i = cid then some v else lookupChannel rest cid

/-- Embedding of `voice_disconnect` (lines 191-200): log, set
`_oobabot_voice_connected = False`, then await the gateway leave, the
Discrivener stop and the responder stop in order; an exception at any of
those awaits aborts the rest and propagates. -/
def voice_disconnect (s : VCState) (env : DisconnectEnv) :
    VCState × List Effect × Option VCErr :=
  let s1 := { s with oobabot_voice_connected := false }
  if env.leaveRaises then
    (s1, [.logInfo, .changeVoiceState none false false], some .gatewayError)
  else if env.discrivenerStopRaises then
    (s1, [.logInfo, .changeVoiceState none false false, .discrivenerStop],
     some .discrivenerStopError)
  else
    let s2 := { s1 with discrivener := s1.discrivener.map fun _ => ⟨false⟩ }
    if env.responderStopRaises then
      (s2, [.logInfo, .changeVoiceState none false false, .discrivenerStop,
            .audioResponderStop], some .responderStopError)
    else
      (s2, [.logInfo, .changeVoiceState none false false, .discrivenerStop,
            .audioResponderStop], none)

/-- Embedding of `disconnect` (lines 250-261): early return when not forced
and not connected; otherwise `voice_disconnect` inside `try`, with
`self.cleanup()` in the `finally` block, so `cleanup` runs and any
exception still propagates afterwards. -/
def disconnect (s : VCState) (force : Bool) (env : DisconnectEnv) :
    VCState × List Effect × Option VCErr :=
  if !force && !is_connected s then (s, [], none)
  else
    match voice_disconnect s env with
    | (s1, effs, err) => (s1, effs ++ [.cleanup], err)

/-- Embedding of `on_voice_state_update` (lines 101-144).  The stored
session id is assigned unconditionally first; then the code branches on
`not self._handshaking or self._potentially_reconnecting`.  The
server-initiated branch disconnects on a null channel id, warns and
returns on an unknown or non-vocal channel, and otherwise adopts the
channel; the handshake branch only sets `_voice_state_complete`. -/
def on_voice_state_update (s : VCState) (d : StateUpdatePayload)
    (env : DisconnectEnv) : VCState × List Effect × Option VCErr :=
  let s0 := { s with session_id := d.session_id }
  if !s0.handshaking || s0.potentially_reconnecting then
    match d.channel_id with
    | none =>
      match disconnect s0 false env with
      | (s1, effs, err) => (s1, .logDebug :: effs, err)
    | some cid =>
      match lookupChannel s0.guild_channels cid with
      | none => (s0, [.logDebug, .warnChannelNotFound cid], none)
      | some isVocal =>
        if isVocal then ({ s0 with channel_id := cid }, [.logDebug], none)
        else (s0, [.logDebug, .warnChannelNotVocal cid], none)
  else
    ({ s0 with voice_state_complete := true }, [.logDebug], none)

/-- Embedding of `on_voice_server_update` (lines 146-182): drop the event
with a warning when `_voice_server_complete` is already set; warn and
return when endpoint or token is null; otherwise normalize the endpoint,
start the Discrivener with the connection identity, start the audio
responder, and set `_voice_server_complete`. -/
def on_voice_server_update (s : VCState) (d : ServerUpdatePayload) :
    VCState × List Effect :=
  if s.voice_server_complete then (s, [.warnExtraneousServerUpdate])
  else
    match d.endpoint, d.token with
    | some ep, some tok =>
      ({ s with discrivener := s.discrivener.map fun _ => ⟨true⟩
                voice_server_complete := true },
       [.discrivenerRun s.channel_id (normalizeEndpoint ep) d.guild_id
          s.session_id s.user_id tok,
        .audioResponderStart])
    | _, _ => (s, [.warnAwaitingEndpoint])

/-- Embedding of `_handle_discrivener_output` (lines 287-331).
`loopAvailable` tells whether `asyncio.get_event_loop()` yields a loop.
On CONNECT/RECONNECT: set the state event and `_discrivener_connected`.
On DISCONNECT: set the state event, clear `_discrivener_connected`, and
hand `self.disconnect` to `loop.call_soon_threadsafe` instead of calling
it inline (recorded as `scheduleDisconnect`). -/
def handle_discrivener_output (s : VCState) (m : DiscrivenerMessage)
    (loopAvailable : Bool) : VCState × List Effect :=
  match m.type with
  | .connect | .reconnect =>
    ({ s with voice_state_complete := true, discrivener_connected := true },
     [.logDebug])
  | .disconnect =>
    let s1 := { s with voice_state_complete := true
                       discrivener_connected := false }
    if loopAvailable then (s1, [.logDebug, .scheduleDisconnect])
    else (s1, [.logDebug, .warnNoEventLoop])
  | .userJoin => (s, [.logDebug])
  | .transcribedMessage =>
    if m.isTranscribedInstance then (s, [.transcriptOnMessage])
    else (s, [.warnNotTranscribedInstance])
  | .unknown => (s, [.warnUnknownMessageType])

/-- Modelled from Python asyncio semantics, for the scheduled callback of
the DISCONNECT branch: `loop.call_soon_threadsafe(self.disconnect)` later
invokes `self.disconnect()` as a plain callback.  Calling a coroutine
function only builds a coroutine object; the loop never awaits it, so the
body of `disconnect` never executes: no state change, no effect. -/
def runScheduledDisconnect (s : VCState) : VCState × List Effect := (s, [])

/-- One event delivered to the client while `connect` is suspended on the
handshake gate: a gateway voice-state update, a gateway voice-server
update, or a Discrivener notification. -/
inductive MidEvent where
  | stateUpdate (d : StateUpdatePayload) (env : DisconnectEnv)
  | serverUpdate (d : ServerUpdatePayload)
  | discrivenerMsg (m : DiscrivenerMessage) (loopAvailable : Bool)
deriving DecidableEq, Repr

/-- Dispatch one delivered event to its handler.  An exception escaping
`on_voice_state_update` is absorbed by the task that ran the dispatch, not
by the coroutine suspended in `connect`, so it is dropped here. -/
def stepEvent (s : VCState) (e : MidEvent) : VCState × List Effect :=
  match e with
  | .stateUpdate d env =>
    match on_voice_state_update s d env with
    | (s1, effs, _) => (s1, effs)
  | .serverUpdate d => on_voice_server_update s d
  | .discrivenerMsg m loopAvailable => handle_discrivener_output s m loopAvailable

/-- Fold a list of delivered events over the state, concatenating their
effects. -/
def applyEvents (s : VCState) (evs : List MidEvent) : VCState × List Effect :=
  match evs with
  | [] => (s, [])
  | e :: rest =>
    match stepEvent s e with
    | (s1, effs1) =>
      match applyEvents s1 rest with
      | (s2, effs2) => (s2, effs1 ++ effs2)

/-- Embedding of `voice_connect` (lines 184-189): a single gateway
voice-state-change request naming the current channel. -/
def voice_connect (s : VCState) (self_deaf self_mute : Bool) : List Effect :=
  [.changeVoiceState (some s.channel_id) self_deaf self_mute]

/-- The state `connect` reaches just before awaiting the gate: both events
cleared and `_handshaking = True`. -/
def handshakeStart (s : VCState) : VCState :=
  { s with voice_state_complete := false
           voice_server_complete := false
           handshaking := true }

/-- Whether the handshake gate is satisfied at the end of the wait window:
both events set after folding the events delivered before the timeout. -/
def gateSatisfied (s : VCState) (evs : List MidEvent) : Bool :=
  (applyEvents (handshakeStart s) evs).1.voice_state_complete &&
    (applyEvents (handshakeStart s) evs).1.voice_server_complete

/-- Embedding of `connect` (lines 202-243).  `evs` lists the events the
event loop delivers before the timeout deadline; `sane_wait_for` succeeds
exactly when both gate events are set by then.  On timeout the code runs
`disconnect(force=True)` (whose own exception, if any, replaces the
`VoiceClientError`) and raises.  On success it marks the session
connected, clears both events and ends the handshake. -/
def connect (s : VCState) (self_deaf self_mute : Bool) (evs : List MidEvent)
    (tEnv : DisconnectEnv) : VCState × List Effect × Option VCErr :=
  if is_connected s then (s, [.logInfo], some .alreadyConnected)
  else
    let s1 := handshakeStart s
    let pre := .logInfo :: .logInfo :: voice_connect s1 self_deaf self_mute
    match applyEvents s1 evs with
    | (s2, mid) =>
      if s2.voice_state_complete && s2.voice_server_complete then
        ({ s2 with oobabot_voice_connected := true
                   voice_state_complete := false
                   voice_server_complete := false
                   handshaking := false },
         pre ++ mid ++ [.logInfo], none)
      else
        match disconnect s2 true tEnv with
        | (s3, dEffs, dErr) =>
          (s3, pre ++ mid ++ dEffs, some (dErr.getD .handshakeTimeout))

/-! Helper lemmas shared by several claims. -/

lemma listIsPref_append (p h t : List Char) (hp : listIsPref p h = true) :
    listIsPref p (h ++ t) = true := by
  induction p generalizing h with
  | nil => simp [listIsPref]
  | cons a as ih =>
    cases h with
    | nil => simp [listIsPref] at hp
    | cons b bs =>
      simp only [listIsPref, Bool.and_eq_true, beq_iff_eq] at hp
      simp only [List.cons_append, listIsPref, Bool.and_eq_true, beq_iff_eq]
      exact ⟨hp.1, ih bs hp.2⟩

lemma dropToColon_suffix_ex (m : List Char) : ∃ k, m = k ++ dropToColon m := by
  induction m with
  | nil => exact ⟨[], rfl⟩
  | cons x xs ih =>
    rcases ih with ⟨k, hk⟩
    by_cases hx : x = ':'
    · exact ⟨[x], by simp [dropToColon, hx]⟩
    · refine ⟨x :: k, ?_⟩
      simp only [dropToColon, if_neg hx, List.cons_append]
      exact congrArg (x :: ·) hk

lemma rpartHeadList_pref_ex (l : List Char) : ∃ t, l = rpartHeadList l ++ t := by
  obtain ⟨k, hk⟩ := dropToColon_suffix_ex l.reverse
  refine ⟨k.reverse, ?_⟩
  have h2 := congrArg List.reverse hk
  simpa [rpartHeadList, List.reverse_append] using h2

lemma pyStartswith_of_rpartHead (s : String)
    (h : pyStartswith (pyRpartitionHead s) "wss://" = true) :
    pyStartswith s "wss://" = true := by
  obtain ⟨t, ht⟩ := rpartHeadList_pref_ex s.data
  have h1 : listIsPref "wss://".data (rpartHeadList s.data) = true := h
  show listIsPref "wss://".data s.data = true
  rw [ht]
  exact listIsPref_append _ _ _ h1

lemma is_connected_false_of_flag (s : VCState)
    (h : s.oobabot_voice_connected = false) : is_connected s = false := by
  simp [is_connected, h]

/-! Claim theorems. -/

/-- C7, counterexample: the claim says normalization stores
`"region123.example.com:443"` for input `"wss://region123.example.com:443"`,
but `rpartition(":")` strips the `:443` port suffix before the scheme is
removed, so the stored endpoint lacks the port. -/
theorem C7_normalize_counterexample :
    normalizeEndpoint "wss://region123.example.com:443" ≠
      "region123.example.com:443" := by
  decide

/-- C7, amended: `"wss://region123.example.com:443"` normalizes to
`"region123.example.com"` (both the port suffix and the secure-scheme
prefix stripped); any input that does not start with `wss://` passes
through with only the rpartition port-suffix stripping applied. -/
theorem C7_normalize_amended :
    normalizeEndpoint "wss://region123.example.com:443" =
      "region123.example.com" ∧
    ∀ ep : String, pyStartswith ep "wss://" = false →
      normalizeEndpoint ep = pyRpartitionHead ep := by
  refine ⟨by decide, ?_⟩
  intro ep h
  unfold normalizeEndpoint
  by_cases hw : pyStartswith (pyRpartitionHead ep) "wss://" = true
  · exact absurd (pyStartswith_of_rpartHead ep hw) (by simp [h])
  · simp only [Bool.not_eq_true] at hw
    simp [hw]

/-- C7 witness: the amended theorem applied to the concrete scheme-free
input `"plain.host:80"`. -/
theorem C7_normalize_witness :
    normalizeEndpoint "plain.host:80" = "plain.host" :=
  (C7_normalize_amended.2 "plain.host:80" rfl).trans (by decide)

/-- C3: `is_connected` equals the three-way AND of the gateway-connected
flag, the transcription session being alive, and the last
transcription-session notification having been a connect; hence making
any one of the three false makes `is_connected` false. -/
theorem C3_is_connected_three_way_and (s : VCState) :
    is_connected s =
      (s.oobabot_voice_connected && discrivenerAlive s &&
        s.discrivener_connected) := by
  unfold is_connected discrivenerAlive
  cases hd : s.discrivener with
  | none => cases s.oobabot_voice_connected <;> simp
  | some d =>
    cases s.oobabot_voice_connected <;> cases hr : d.running <;> simp [hr]

/-- A fully connected state: gateway-marked connected, Discrivener running,
last notification a connect. -/
def connectedVCState : VCState :=
  { initialVCState with
      oobabot_voice_connected := true
      discrivener := some ⟨true⟩
      discrivener_connected := true }

/-- C2: `on_voice_server_update` acts only on the first well-formed
delivery: with the server-signal already set it warns and changes nothing
(in particular no second Discrivener run); with endpoint or token null it
warns and returns without setting the signal or starting anything;
otherwise it runs the Discrivener on the normalized endpoint, starts the
audio responder, and sets the server-signal. -/
theorem C2_on_voice_server_update_spec (s : VCState) (d : ServerUpdatePayload) :
    (s.voice_server_complete = true →
      on_voice_server_update s d = (s, [.warnExtraneousServerUpdate])) ∧
    (s.voice_server_complete = false → (d.endpoint = none ∨ d.token = none) →
      on_voice_server_update s d = (s, [.warnAwaitingEndpoint])) ∧
    (∀ ep tok, s.voice_server_complete = false → d.endpoint = some ep →
      d.token = some tok →
      on_voice_server_update s d =
        ({ s with discrivener := s.discrivener.map fun _ => ⟨true⟩
                  voice_server_complete := true },
         [.discrivenerRun s.channel_id (normalizeEndpoint ep) d.guild_id
            s.session_id s.user_id tok,
          .audioResponderStart])) := by
  refine ⟨?_, ?_, ?_⟩
  · intro h
    simp [on_voice_server_update, h]
  · intro h hmiss
    rcases hmiss with he | ht
    · simp [on_voice_server_update, h, he]
    · cases he2 : d.endpoint <;> simp [on_voice_server_update, h, ht, he2]
  · intro ep tok h hep htok
    simp [on_voice_server_update, h, hep, htok]

/-- C2 witness: the three branches of the theorem at concrete inputs — a
duplicate delivery, a null-token delivery, and a first well-formed
delivery. -/
theorem C2_on_voice_server_update_witness :
    on_voice_server_update { initialVCState with voice_server_complete := true }
        ⟨some "tok", 7, some "wss://h.example.com:443"⟩ =
      ({ initialVCState with voice_server_complete := true },
       [.warnExtraneousServerUpdate]) ∧
    on_voice_server_update initialVCState ⟨none, 7, some "h.example.com:443"⟩ =
      (initialVCState, [.warnAwaitingEndpoint]) ∧
    on_voice_server_update initialVCState
        ⟨some "tok", 7, some "wss://h.example.com:443"⟩ =
      ({ initialVCState with discrivener := some ⟨true⟩
                             voice_server_complete := true },
       [.discrivenerRun 1 "h.example.com" 7 "" 42 "tok",
        .audioResponderStart]) := by
  refine ⟨(C2_on_voice_server_update_spec _ _).1 rfl, ?_, ?_⟩
  · exact (C2_on_voice_server_update_spec _ _).2.1 rfl (Or.inr rfl)
  · have h := (C2_on_voice_server_update_spec initialVCState
      ⟨some "tok", 7, some "wss://h.example.com:443"⟩).2.2
      "wss://h.example.com:443" "tok" rfl rfl rfl
    exact h.trans (by decide)

/-- C4: on a DISCONNECT notification (with an event loop available), the
handler sets the state-signal, clears the transcription-connected flag
(making `is_connected` false), and only schedules `self.disconnect` via
`call_soon_threadsafe` — but the scheduled callback merely builds an
un-awaited coroutine object, so the disconnect body (gateway leave,
session stop, cleanup) never runs: running the scheduled callback changes
nothing and no teardown effect is ever emitted. -/
theorem C4_disconnect_notification_never_runs (s : VCState) (b : Bool) :
    handle_discrivener_output s ⟨.disconnect, b⟩ true =
      ({ s with voice_state_complete := true, discrivener_connected := false },
       [.logDebug, .scheduleDisconnect]) ∧
    is_connected (handle_discrivener_output s ⟨.disconnect, b⟩ true).1 = false ∧
    runScheduledDisconnect (handle_discrivener_output s ⟨.disconnect, b⟩ true).1 =
      ((handle_discrivener_output s ⟨.disconnect, b⟩ true).1, []) ∧
    Effect.cleanup ∉ (handle_discrivener_output s ⟨.disconnect, b⟩ true).2 ∧
    Effect.changeVoiceState none false false ∉
      (handle_discrivener_output s ⟨.disconnect, b⟩ true).2 := by
  refine ⟨rfl, ?_, rfl, by simp [handle_discrivener_output],
    by simp [handle_discrivener_output]⟩
  show is_connected
    { s with voice_state_complete := true, discrivener_connected := false } = false
  unfold is_connected
  cases s.oobabot_voice_connected <;> cases hd : s.discrivener <;> simp

/-- C5, counterexample: the claim says a failing gateway leave request is
logged and not propagated; on a connected state with the leave raising,
`disconnect` re-raises the gateway error to the caller (the `finally`
block only guarantees `cleanup`, it does not swallow the exception). -/
theorem C5_disconnect_counterexample :
    (disconnect connectedVCState false ⟨true, false, false⟩).2.2 ≠ none := by
  decide

/-- C5, amended: `disconnect(force)` is a no-op when not connected and not
forced; otherwise it requests the gateway leave, then stops the
Discrivener, then stops the audio responder (later steps skipped when an
earlier await raises), the `cleanup` step always runs last, and any
exception of `voice_disconnect` — including a gateway leave failure — is
propagated to the caller after cleanup rather than logged and swallowed. -/
theorem C5_disconnect_amended (s : VCState) (force : Bool)
    (env : DisconnectEnv) :
    (force = false → is_connected s = false →
       disconnect s force env = (s, [], none)) ∧
    (force = true ∨ is_connected s = true →
       (disconnect s force env).2.1.getLast? = some .cleanup ∧
       (disconnect s force env).2.2 = (voice_disconnect s env).2.2 ∧
       (env = noFailEnv →
         disconnect s force env =
           ({ s with oobabot_voice_connected := false
                     discrivener := s.discrivener.map fun _ => ⟨false⟩ },
            [.logInfo, .changeVoiceState none false false, .discrivenerStop,
             .audioResponderStop, .cleanup], none))) := by
  constructor
  · intro hf hc
    simp [disconnect, hf, hc]
  · intro h
    have hcond : (!force && !is_connected s) = false := by
      rcases h with h | h <;> simp [h]
    refine ⟨?_, ?_, ?_⟩
    · simp only [disconnect, hcond, Bool.false_eq_true, if_false]
      rcases hv : voice_disconnect s env with ⟨s1, effs, err⟩
      simp
    · simp only [disconnect, hcond, Bool.false_eq_true, if_false]
    · intro henv
      subst henv
      simp [disconnect, hcond, voice_disconnect, noFailEnv]

/-- C5 witness: the amended theorem at a connected state whose gateway
leave raises — cleanup still runs last and the gateway error propagates —
and at a connected state where nothing fails. -/
theorem C5_disconnect_witness :
    (disconnect connectedVCState false ⟨true, false, false⟩).2.1.getLast? =
      some .cleanup ∧
    (disconnect connectedVCState false ⟨true, false, false⟩).2.2 =
      some .gatewayError ∧
    disconnect connectedVCState false noFailEnv =
      ({ connectedVCState with oobabot_voice_connected := false
                               discrivener := some ⟨false⟩ },
       [.logInfo, .changeVoiceState none false false, .discrivenerStop,
        .audioResponderStop, .cleanup], none) := by
  have h1 := (C5_disconnect_amended connectedVCState false
    ⟨true, false, false⟩).2 (Or.inr rfl)
  have h2 := ((C5_disconnect_amended connectedVCState false noFailEnv).2
    (Or.inr rfl)).2.2 rfl
  exact ⟨h1.1, h1.2.1.trans (by decide), h2.trans (by decide)⟩

/-- C6: `connect` on an already-connected instance fails immediately with
the already-connected `VoiceClientError`, leaving the state (in
particular both gate signals) unchanged and sending nothing to the
gateway. -/
theorem C6_connect_already_connected (s : VCState) (sd sm : Bool)
    (evs : List MidEvent) (env : DisconnectEnv)
    (h : is_connected s = true) :
    connect s sd sm evs env = (s, [.logInfo], some .alreadyConnected) := by
  simp [connect, h]

/-- C6 witness: the theorem at the concrete connected state. -/
theorem C6_connect_already_connected_witness :
    connect connectedVCState false false [] noFailEnv =
      (connectedVCState, [.logInfo], some .alreadyConnected) :=
  C6_connect_already_connected connectedVCState false false [] noFailEnv rfl

/-- Events that drive a successful handshake from the initial state: the
gateway state-update (during handshake it sets the state event) followed
by a well-formed server-update. -/
def demoHandshakeEvents : List MidEvent :=
  [.stateUpdate ⟨"sess1", some 1⟩ noFailEnv,
   .serverUpdate ⟨some "tok", 7, some "wss://region.example.com:443"⟩]

/-- C1: starting from a not-connected state, `connect` raises no error on
any run whose delivered events satisfy both gate signals before the
timeout; when the gate is not satisfied it fails with the
handshake-timeout `VoiceClientError` after a forced disconnect (cleanup
ran, the gateway was asked to leave, and the client ends not connected). -/
theorem C1_connect_timeout_spec (s : VCState) (sd sm : Bool)
    (evs : List MidEvent) (h : is_connected s = false) :
    (gateSatisfied s evs = true →
       (connect s sd sm evs noFailEnv).2.2 = none) ∧
    (gateSatisfied s evs = false →
       (connect s sd sm evs noFailEnv).2.2 = some .handshakeTimeout ∧
       Effect.cleanup ∈ (connect s sd sm evs noFailEnv).2.1 ∧
       Effect.changeVoiceState none false false ∈
         (connect s sd sm evs noFailEnv).2.1 ∧
       is_connected (connect s sd sm evs noFailEnv).1 = false) := by
  rcases hA : applyEvents (handshakeStart s) evs with ⟨s2, mid⟩
  have hg : gateSatisfied s evs =
      (s2.voice_state_complete && s2.voice_server_complete) := by
    simp [gateSatisfied, hA]
  constructor
  · intro hgt
    rw [hg] at hgt
    simp [connect, h, hA, hgt]
  · intro hgf
    rw [hg] at hgf
    have hend : (connect s sd sm evs noFailEnv).1.oobabot_voice_connected
        = false := by
      simp [connect, h, hA, hgf, disconnect, voice_disconnect, noFailEnv]
    refine ⟨?_, ?_, ?_, is_connected_false_of_flag _ hend⟩
    · simp [connect, h, hA, hgf, disconnect, voice_disconnect, noFailEnv]
    · simp [connect, h, hA, hgf, disconnect, voice_disconnect, noFailEnv]
    · simp [connect, h, hA, hgf, disconnect, voice_disconnect, noFailEnv]

/-- C1 witness: from the initial state, the demo handshake run succeeds
with no error, and the empty run times out with the handshake error. -/
theorem C1_connect_timeout_witness :
    (connect initialVCState false false demoHandshakeEvents noFailEnv).2.2 =
      none ∧
    (connect initialVCState false false [] noFailEnv).2.2 =
      some .handshakeTimeout := by
  refine ⟨(C1_connect_timeout_spec initialVCState false false
    demoHandshakeEvents rfl).1 rfl, ?_⟩
  exact ((C1_connect_timeout_spec initialVCState false false [] rfl).2 rfl).1

/-- C10: every teardown that reaches `voice_disconnect` clears the
gateway-connected flag before (independently of) the leave request, so
after `disconnect` with the client connected or force set, `is_connected`
is false under every combination of external failures. -/
theorem C10_disconnect_forces_disconnected (s : VCState) (force : Bool)
    (env : DisconnectEnv) (h : force = true ∨ is_connected s = true) :
    (voice_disconnect s env).1.oobabot_voice_connected = false ∧
    (disconnect s force env).1.oobabot_voice_connected = false ∧
    is_connected (disconnect s force env).1 = false := by
  have hv : ∀ e : DisconnectEnv,
      (voice_disconnect s e).1.oobabot_voice_connected = false := by
    intro e
    unfold voice_disconnect
    split_ifs <;> rfl
  have hcond : (!force && !is_connected s) = false := by
    rcases h with h | h <;> simp [h]
  have hd : (disconnect s force env).1.oobabot_voice_connected = false := by
    simp only [disconnect, hcond, Bool.false_eq_true, if_false]
    rcases hvv : voice_disconnect s env with ⟨s1, effs, err⟩
    have hx := hv env
    rw [hvv] at hx
    simpa using hx
  exact ⟨hv env, hd, is_connected_false_of_flag _ hd⟩

/-- C10 witness: a connected client whose gateway leave raises is still
not connected after `disconnect`. -/
theorem C10_disconnect_forces_disconnected_witness :
    is_connected (disconnect connectedVCState false ⟨true, false, false⟩).1 =
      false :=
  (C10_disconnect_forces_disconnected connectedVCState false
    ⟨true, false, false⟩ (Or.inr rfl)).2.2

lemma voice_disconnect_session_id (s : VCState) (env : DisconnectEnv) :
    (voice_disconnect s env).1.session_id = s.session_id := by
  unfold voice_disconnect
  split_ifs <;> rfl

lemma disconnect_session_id (s : VCState) (force : Bool)
    (env : DisconnectEnv) :
    (disconnect s force env).1.session_id = s.session_id := by
  unfold disconnect
  split_ifs with h
  · rfl
  · rcases hv : voice_disconnect s env with ⟨s1, effs, err⟩
    have hx := voice_disconnect_session_id s env
    rw [hv] at hx
    simpa using hx

lemma disconnect_logDebug_session_id (X : VCState) (env : DisconnectEnv) :
    (match disconnect X false env with
     | (s1, effs, err) => (s1, Effect.logDebug :: effs, err)).1.session_id
      = X.session_id := by
  rcases hv : disconnect X false env with ⟨s1, effs, err⟩
  have hx := disconnect_session_id X false env
  rw [hv] at hx
  simpa using hx

lemma on_voice_state_update_session_id (s : VCState) (d : StateUpdatePayload)
    (env : DisconnectEnv) :
    (on_voice_state_update s d env).1.session_id = d.session_id := by
  obtain ⟨disc, dc, hsk, ov, pr, vsc, vvc, sid, cid0, uid, gid, gch⟩ := s
  cases hsk <;> cases pr <;>
    simp only [on_voice_state_update, Bool.not_false, Bool.not_true,
      Bool.true_or, Bool.false_or, Bool.or_false, Bool.or_true,
      if_true, if_false] <;>
    cases hc : d.channel_id <;> simp only [hc] <;>
    try rfl
  all_goals {
    first
    | exact disconnect_logDebug_session_id _ env
    | {
        rename_i cid
        cases hl : lookupChannel gch cid
        · simp only [hl]
        · simp only [hl]
          rename_i v
          cases v <;> rfl
      }
  }

/-- A guild holding two vocal channels (ids 1 and 3), for exercising a
server-initiated channel move. -/
def twoVocalState : VCState :=
  { initialVCState with guild_channels := [(1, true), (3, true)] }

/-- C8, counterexample: during the handshake (handshaking set, not
potentially reconnecting) a voice-state update naming vocal channel 2
leaves the stored channel at 1 — the channel is not always updated. -/
theorem C8_channel_counterexample :
    (on_voice_state_update { initialVCState with handshaking := true }
        ⟨"sess2", some 2⟩ noFailEnv).1.channel_id ≠ 2 := by
  decide

/-- C8, amended: `on_voice_state_update` always updates the stored session
id; the current channel is updated only on a server-initiated event (not
handshaking, or potentially reconnecting) naming a known vocal channel,
and during the handshake the channel is left unchanged. -/
theorem C8_on_voice_state_update_amended (s : VCState)
    (d : StateUpdatePayload) (env : DisconnectEnv) :
    (on_voice_state_update s d env).1.session_id = d.session_id ∧
    (∀ cid, (!s.handshaking || s.potentially_reconnecting) = true →
       d.channel_id = some cid →
       lookupChannel s.guild_channels cid = some true →
       (on_voice_state_update s d env).1.channel_id = cid) ∧
    (s.handshaking = true → s.potentially_reconnecting = false →
       (on_voice_state_update s d env).1.channel_id = s.channel_id) := by
  refine ⟨on_voice_state_update_session_id s d env, ?_, ?_⟩
  · intro cid hb hc hl
    obtain ⟨disc, dc, hsk, ov, pr, vsc, vvc, sid, cid0, uid, gid, gch⟩ := s
    simp only at hb hl
    simp [on_voice_state_update, hb, hc, hl]
  · intro h1 h2
    obtain ⟨disc, dc, hsk, ov, pr, vsc, vvc, sid, cid0, uid, gid, gch⟩ := s
    simp only at h1 h2
    subst h1
    subst h2
    simp [on_voice_state_update]

/-- C8 witness: a post-handshake move to vocal channel 3 is adopted with
the new session id, while the same payload during the handshake leaves
the channel at 1. -/
theorem C8_on_voice_state_update_witness :
    (on_voice_state_update twoVocalState ⟨"sess9", some 3⟩
        noFailEnv).1.channel_id = 3 ∧
    (on_voice_state_update twoVocalState ⟨"sess9", some 3⟩
        noFailEnv).1.session_id = "sess9" ∧
    (on_voice_state_update { initialVCState with handshaking := true }
        ⟨"sessH", some 3⟩ noFailEnv).1.channel_id = 1 := by
  refine ⟨(C8_on_voice_state_update_amended twoVocalState ⟨"sess9", some 3⟩
      noFailEnv).2.1 3 rfl rfl rfl,
    (C8_on_voice_state_update_amended twoVocalState ⟨"sess9", some 3⟩
      noFailEnv).1, ?_⟩
  exact (C8_on_voice_state_update_amended
    { initialVCState with handshaking := true } ⟨"sessH", some 3⟩
    noFailEnv).2.2 rfl rfl

/-- C9, counterexample: a post-handshake event naming unknown channel 99
is not free of state change — the stored session id is assigned before
the channel checks, so the state differs afterwards. -/
theorem C9_unknown_channel_counterexample :
    (on_voice_state_update initialVCState ⟨"sessX", some 99⟩ noFailEnv).1 ≠
      initialVCState := by
  decide

/-- C9, amended: a post-handshake voice-state update naming an unknown
channel, or a channel that is not vocal, logs a warning and is otherwise
ignored: no state change apart from the unconditional session-id update,
no disconnect, no error. -/
theorem C9_unknown_channel_amended (s : VCState) (d : StateUpdatePayload)
    (env : DisconnectEnv) (cid : Nat)
    (hb : (!s.handshaking || s.potentially_reconnecting) = true)
    (hc : d.channel_id = some cid) :
    (lookupChannel s.guild_channels cid = none →
       on_voice_state_update s d env =
         ({ s with session_id := d.session_id },
          [.logDebug, .warnChannelNotFound cid], none)) ∧
    (lookupChannel s.guild_channels cid = some false →
       on_voice_state_update s d env =
         ({ s with session_id := d.session_id },
          [.logDebug, .warnChannelNotVocal cid], none)) := by
  obtain ⟨disc, dc, hsk, ov, pr, vsc, vvc, sid, cid0, uid, gid, gch⟩ := s
  simp only at hb
  constructor <;> intro hl <;> simp [on_voice_state_update, hb, hc, hl]

/-- C9 witness: the amended theorem at the initial (post-handshake) state
for unknown channel 99 and for text channel 2. -/
theorem C9_unknown_channel_witness :
    on_voice_state_update initialVCState ⟨"sessX", some 99⟩ noFailEnv =
      ({ initialVCState with session_id := "sessX" },
       [.logDebug, .warnChannelNotFound 99], none) ∧
    on_voice_state_update initialVCState ⟨"sessY", some 2⟩ noFailEnv =
      ({ initialVCState with session_id := "sessY" },
       [.logDebug, .warnChannelNotVocal 2], none) :=
  ⟨(C9_unknown_channel_amended initialVCState ⟨"sessX", some 99⟩ noFailEnv 99
      rfl rfl).1 rfl,
   (C9_unknown_channel_amended initialVCState ⟨"sessY", some 2⟩ noFailEnv 2
      rfl rfl).2 rfl⟩

end OobaVoice
